import Mathlib

/-!
# Verification of the Seoul nightspot recommendation core

Shallow embedding of the repository's core modules and proofs of the
specification's claims about them:

* `app/services/geo.py` — great-circle distance, nearest-neighbour ranking,
  coordinate validation, preset coordinates;
* `app/agents/nodes.py` — the pipeline stage functions (origin resolver and
  agents C/E/D);
* `app/agents/graph.py` — the validation gate `ensure_origin_valid` and the
  `run_o_to_d` entry point (O → C → E → D);
* `app/services/rag.py` — the in-memory semantic index (`build_index`,
  `search`).

Modelling conventions:

* Python floats are modelled as exact rationals (`ℚ`) in the pipeline code,
  which only parses, compares and defaults them; the transcendental haversine
  formula is modelled over the reals (`ℝ`), and the pipeline's use of it is
  abstracted as a distance-function parameter `hdist` (the rational value the
  floating-point evaluation of `haversine_km` produces).
* Python dict-shaped state is modelled by the fields the repository's
  `GraphState` TypedDict declares.  A loosely typed dict value is `PyVal`
  (number, string, or `None`); a missing key is `Option.none`.
* `float(x)` / `int(x)` on strings are modelled for finite decimal literals;
  Python's unstable-sum-of-special-cases (`inf`, `nan`, underscores) is out of
  scope and never produced by the repository's data paths.
-/

/-! ## Python value model -/

/-- A loosely typed Python value as stored in the pipeline's state dict:
a number (Python float/int, modelled exactly as a rational), a string,
or `None`. -/
inductive PyVal where
  | vnum (q : ℚ)
  | vstr (s : String)
  | vnone
deriving DecidableEq

/-- Python whitespace for `str.strip()` (ASCII subset). -/
def isPySpace (c : Char) : Bool :=
  c = ' ' || c = '\t' || c = '\n' || c = '\r' || c = '\x0b' || c = '\x0c'

/-- Model of `str.strip()` on the character list. -/
def pyStripList (cs : List Char) : List Char :=
  ((cs.dropWhile isPySpace).reverse.dropWhile isPySpace).reverse

/-- Model of `str.strip()`. -/
def pyStrip (s : String) : String := String.mk (pyStripList s.data)

/-- Model of `str.lower()` (ASCII case folding, which is all the repository uses). -/
def pyLower (s : String) : String := String.mk (s.data.map Char.toLower)

/-- Digit run to a natural number (most significant first). -/
def digitsToNat (cs : List Char) : ℕ :=
  cs.foldl (fun a c => a * 10 + (c.toNat - 48)) 0

/-- All characters are decimal digits. -/
def allDigits (cs : List Char) : Bool := cs.all (·.isDigit)

/-- Python `int(s)` on a string: optional sign, one or more digits,
surrounding whitespace allowed; anything else raises (`none`). -/
def parseInt (s : String) : Option ℤ :=
  match pyStripList s.data with
  | [] => none
  | '+' :: ds => if ds ≠ [] && allDigits ds then some ((digitsToNat ds : ℤ)) else none
  | '-' :: ds => if ds ≠ [] && allDigits ds then some (-(digitsToNat ds : ℤ)) else none
  | ds => if allDigits ds then some ((digitsToNat ds : ℤ)) else none

/-- Exponent part of a float literal (after `e`/`E`): optional sign then
one or more digits. -/
def parseExpPart (cs : List Char) : Option ℤ :=
  match cs with
  | [] => none
  | '+' :: ds => if ds ≠ [] && allDigits ds then some ((digitsToNat ds : ℤ)) else none
  | '-' :: ds => if ds ≠ [] && allDigits ds then some (-(digitsToNat ds : ℤ)) else none
  | ds => if allDigits ds then some ((digitsToNat ds : ℤ)) else none

/-- Mantissa of a float literal: digits with an optional single decimal
point, at least one digit overall.  Returns the digits as a natural number
together with the number of fractional digits. -/
def parseMantPart (cs : List Char) : Option (ℕ × ℕ) :=
  let ip := cs.takeWhile (· ≠ '.')
  match cs.dropWhile (· ≠ '.') with
  | [] => if ip ≠ [] && allDigits ip then some (digitsToNat ip, 0) else none
  | _ :: fp =>
    if (ip ≠ [] || fp ≠ []) && allDigits ip && allDigits fp then
      some (digitsToNat (ip ++ fp), fp.length)
    else none

/-- Assemble `±mant · 10^(ex - fracLen)` as an exact rational. -/
def floatParts (sgn : Bool) (mant : ℕ) (fracLen : ℕ) (ex : ℤ) : ℚ :=
  let e : ℤ := ex - fracLen
  let n : ℤ := if sgn then -(mant : ℤ) else (mant : ℤ)
  if 0 ≤ e then mkRat (n * (10 : ℤ) ^ e.toNat) 1 else mkRat n ((10 : ℕ) ^ (-e).toNat)

/-- Python `float(s)` on a string, modelled for finite decimal literals
(optional sign, digits with optional point, optional exponent, surrounding
whitespace).  Anything else — in particular the empty string — raises
(`none`). -/
def parseFloat (s : String) : Option ℚ :=
  let cs := pyStripList s.data
  let mant := cs.takeWhile (fun c => c ≠ 'e' && c ≠ 'E')
  let ex? : Option ℤ :=
    match cs.dropWhile (fun c => c ≠ 'e' && c ≠ 'E') with
    | [] => some 0
    | _ :: es => parseExpPart es
  let sgnBody : Bool × List Char :=
    match mant with
    | '+' :: bs => (false, bs)
    | '-' :: bs => (true, bs)
    | bs => (false, bs)
  match ex?, parseMantPart sgnBody.2 with
  | some ex, some (m, fl) => some (floatParts sgnBody.1 m fl ex)
  | _, _ => none

/-- Python `float(v)` on a dict value: numbers pass through, strings are
parsed, `None` raises. -/
def pyFloatV : PyVal → Option ℚ
  | .vnum q => some q
  | .vstr t => parseFloat t
  | .vnone => none

/-- Python `float(d.get(k))`: a missing key gives `float(None)`, which
raises. -/
def pyFloat (x : Option PyVal) : Option ℚ := x.bind pyFloatV

/-- Python `int(v)` on a dict value: floats truncate toward zero, strings
must be integer literals, `None` raises. -/
def pyIntV : PyVal → Option ℤ
  | .vnum q => some (Int.tdiv q.num (q.den : ℤ))
  | .vstr t => parseInt t
  | .vnone => none

/-- Model of `x.get(k) or ""` for string-valued keys: missing keys (and the empty
string itself) give `""`. -/
def strOrEmpty (x : Option String) : String := x.getD ""

/-! ## `app/services/geo.py` -/

/-- A normalized catalog row as consumed by `nearest` (`rows` elements):
the string fields it reads and the free-form coordinate fields `LA`/`LO`. -/
structure Row where
  TITLE : Option String := none
  ADDR : Option String := none
  OPERATING_TIME : Option String := none
  URL : Option String := none
  LA : Option PyVal := none
  LO : Option PyVal := none
deriving DecidableEq

/-- A recommendation produced by `nearest`: the copied/stripped row fields
plus the parsed coordinate and the rounded distance. -/
structure Rec where
  TITLE : String
  ADDR : String
  OPERATING_TIME : String
  URL : String
  LA : ℚ
  LO : ℚ
  DIST_KM : ℚ
deriving DecidableEq

/-- Model of `geo._safe_float`: numeric conversion attempt; `None`/failure gives
`None`, and a parsed value of exactly `0.0` is also treated as `None`. -/
def _safe_float (x : Option PyVal) : Option ℚ :=
  match x with
  | none => none
  | some .vnone => none
  | some (.vnum f) => if f = 0 then none else some f
  | some (.vstr t) =>
    match parseFloat t with
    | none => none
    | some f => if f = 0 then none else some f

/-- Round half to even (Python's `round`) at integer precision, computed on
the numerator/denominator so that it kernel-reduces. -/
def roundHalfEven (x : ℚ) : ℤ :=
  let f := Rat.floor x
  let r := x.num - f * (x.den : ℤ)
  if 2 * r < (x.den : ℤ) then f
  else if (x.den : ℤ) < 2 * r then f + 1
  else if f % 2 = 0 then f else f + 1

/-- Python `round(q, 3)`: round half to even at three decimals.
`mkRat (q.num * 1000) q.den` is the exact value of `q * 1000`. -/
def round3 (q : ℚ) : ℚ := mkRat (roundHalfEven (mkRat (q.num * 1000) q.den)) 1000

/-- The candidate list `nearest` builds before sorting: rows whose `LA`/`LO`
pass `_safe_float`, within `radius_km` of the origin when that is given,
with the output fields copied/stripped and the distance rounded to three
decimals.  `hdist` is the distance function (`haversine_km`'s evaluation). -/
def candidatesOf (hdist : ℚ → ℚ → ℚ → ℚ → ℚ) (rows : List Row)
    (lat lon : ℚ) (radius_km : Option ℚ) : List Rec :=
  rows.filterMap fun r =>
    match _safe_float r.LA, _safe_float r.LO with
    | some la, some lo =>
      let d := hdist lat lon la lo
      match radius_km with
      | some ρ =>
        if ρ < d then none
        else some ⟨pyStrip (strOrEmpty r.TITLE), pyStrip (strOrEmpty r.ADDR),
          pyStrip (strOrEmpty r.OPERATING_TIME), pyStrip (strOrEmpty r.URL), la, lo, round3 d⟩
      | none => some ⟨pyStrip (strOrEmpty r.TITLE), pyStrip (strOrEmpty r.ADDR),
          pyStrip (strOrEmpty r.OPERATING_TIME), pyStrip (strOrEmpty r.URL), la, lo, round3 d⟩
    | _, _ => none

/-- The sort key order of `nearest`: ascending `DIST_KM`. -/
def recLE (a b : Rec) : Prop := a.DIST_KM ≤ b.DIST_KM

instance : DecidableRel recLE := fun a b => inferInstanceAs (Decidable (a.DIST_KM ≤ b.DIST_KM))

instance : IsTotal Rec recLE := ⟨fun a b => le_total a.DIST_KM b.DIST_KM⟩

instance : IsTrans Rec recLE := ⟨fun _ _ _ => le_trans⟩

/-- Model of `geo.nearest`: build the candidates, sort ascending by `DIST_KM` with a
stable sort (Python's `list.sort` is stable; modelled by insertion sort,
which computes the same, unique, stable result), and truncate to
`max(1, topn)`. -/
def nearest (hdist : ℚ → ℚ → ℚ → ℚ → ℚ) (rows : List Row) (lat lon : ℚ)
    (topn : ℤ) (radius_km : Option ℚ) : List Rec :=
  (List.insertionSort recLE (candidatesOf hdist rows lat lon radius_km)).take
    (max 1 topn).toNat

/-- Model of `geo.validate_coords`: both values convert to floats and lie in
latitude/longitude range.  (`NaN`/`Inf` rejection is vacuous here: the
rational model has no non-finite values.) -/
def validate_coords (lat lon : PyVal) : Bool :=
  match pyFloatV lat, pyFloatV lon with
  | some la, some lo =>
    decide (-90 ≤ la) && decide (la ≤ 90) && decide (-180 ≤ lo) && decide (lo ≤ 180)
  | _, _ => false

/-- Model of `geo.PRESET_COORDS` (decimal coordinates written as exact rationals:
e.g. `mkRat 375663 10000 = 37.5663`). -/
def PRESET_COORDS : List (String × (ℚ × ℚ)) :=
  [("시청", (mkRat 375663 10000, mkRat 1269779 10000)),
   ("광화문", (mkRat 375759 10000, mkRat 1269768 10000)),
   ("남산", (mkRat 375512 10000, mkRat 1269882 10000)),
   ("잠실", (mkRat 375130 10000, mkRat 1271028 10000)),
   ("강남", (mkRat 374979 10000, mkRat 1270276 10000)),
   ("여의도", (mkRat 375219 10000, mkRat 1269244 10000))]

/-- Model of `geo._PRESET_ALIASES`. -/
def _PRESET_ALIASES : List (String × String) :=
  [("seoul city hall", "시청"), ("city hall", "시청"), ("gwanghwamun", "광화문"),
   ("namsan", "남산"), ("jamsil", "잠실"), ("gangnam", "강남"), ("yeouido", "여의도")]

/-- Model of `geo._normalize_label`: trim and lowercase. -/
def _normalize_label (label : String) : String := pyLower (pyStrip label)

/-- Model of `geo.get_preset_coord`: exact key, then alias of the normalized label,
then the trimmed label. -/
def get_preset_coord (label : String) : Option (ℚ × ℚ) :=
  if label = "" then none
  else
    match PRESET_COORDS.lookup label with
    | some c => some c
    | none =>
      match (_PRESET_ALIASES.lookup (_normalize_label label)).bind
          (fun m => PRESET_COORDS.lookup m) with
      | some c => some c
      | none => PRESET_COORDS.lookup (pyStrip label)

/-! ### The great-circle formula over the reals -/

/-- Model of `geo.EARTH_RADIUS_KM`. -/
noncomputable def EARTH_RADIUS_KM : ℝ := 6371.0088

/-- Model of `math.radians`. -/
noncomputable def radians (x : ℝ) : ℝ := x * Real.pi / 180

/-- Model of `math.atan2 y x`, as the principal argument of the complex number
`x + y·i` (range `(-π, π]`, `atan2 0 0 = 0`, matching the C library). -/
noncomputable def atan2 (y x : ℝ) : ℝ := Complex.arg ⟨x, y⟩

/-- Model of `geo.haversine_km` with real-number arithmetic. -/
noncomputable def haversine_km (lat1 lon1 lat2 lon2 : ℝ) : ℝ :=
  let phi1 := radians lat1
  let phi2 := radians lat2
  let dphi := phi2 - phi1
  let dlambda := radians (lon2 - lon1)
  let a := Real.sin (dphi / 2) ^ 2 +
    Real.cos phi1 * Real.cos phi2 * Real.sin (dlambda / 2) ^ 2
  let c := 2 * atan2 (Real.sqrt a) (Real.sqrt (1 - a))
  EARTH_RADIUS_KM * c

/-! ## `app/agents/nodes.py` and `app/agents/graph.py`

The pipeline context is the repository's `GraphState` TypedDict
(`total=False`: every key optional).  Loosely typed keys hold `PyVal`;
a missing key is `Option.none`; a key present with value `None` is
`some .vnone` (for `PyVal` keys).

External collaborators are abstracted as function parameters:
* `llm` models `_llm_answer_azure` (`None` on missing config/failure);
* `render` models the map renderer branch of agent E (Leaflet/Kakao and
  its `try/except` replacement text all produce some HTML string);
* `hdist` models the floating-point evaluation of `haversine_km`. -/

/-- An entry of the `sources` list built by agent D. -/
structure SourceRef where
  TITLE : String
  URL : String
deriving DecidableEq

/-- The `GraphState` TypedDict of `app/agents/graph.py`. -/
structure GraphState where
  rows : Option (List Row) := none
  lat : Option PyVal := none
  lon : Option PyVal := none
  topn : Option PyVal := none
  radius_km : Option PyVal := none
  question : Option String := none
  center : Option (ℚ × ℚ) := none
  map_provider : Option String := none
  recommendations : Option (List Rec) := none
  map_html : Option String := none
  answer : Option String := none
  sources : Option (List SourceRef) := none
  origin_mode : Option String := none
  origin_label : Option String := none
  origin_lat : Option PyVal := none
  origin_lon : Option PyVal := none
  error : Option String := none
deriving DecidableEq

/-- Model of `nodes._format_sources`: one `- title (url)` line per recommendation,
up to `limit` (default 5). -/
def _format_sources (recs : List Rec) (limit : ℕ := 5) : String :=
  String.intercalate "\n" ((recs.take limit).map fun r =>
    let title := if r.TITLE = "" then "(제목 없음)" else r.TITLE
    pyStrip (s!"- {title} " ++ (if r.URL = "" then "" else s!"({r.URL})")))

/-- The deterministic fallback answer of agent D (the rule-based template). -/
def templateAnswer (recs : List Rec) : String :=
  String.intercalate "\n"
    (["아래 추천 결과를 참고해 주세요:"] ++
      (recs.map fun r =>
        let t := if r.TITLE = "" then "(제목 없음)" else r.TITLE
        let addr := if r.ADDR = "" then "-" else r.ADDR
        let op := if r.OPERATING_TIME = "" then "-" else r.OPERATING_TIME
        s!"- {t} · {r.DIST_KM}km · {addr} · 운영시간 {op}" ++
          (if r.URL = "" then "" else s!" · {r.URL}")) ++
      ["\n참고한 명소와 URL:", _format_sources recs])

/-- Model of `nodes.agent_c` (Geo Recommender).  `float(...)`/`int(...)` raise
(`Except.error`) on missing or malformed inputs; a non-empty, non-numeric
string radius would raise inside the comparison in `nearest` and is
likewise modelled as an error. -/
def agent_c (hdist : ℚ → ℚ → ℚ → ℚ → ℚ) (s : GraphState) :
    Except String GraphState :=
  let rows := s.rows.getD []
  match pyFloat s.lat, pyFloat s.lon with
  | some lat, some lon =>
    match pyIntV (s.topn.getD (.vnum 5)) with
    | some topn =>
      let rk : PyVal := s.radius_km.getD .vnone
      let rk : PyVal := match rk with
        | .vstr t => if pyStrip t = "" then .vnone else .vstr t
        | v => v
      match rk with
      | .vnone =>
        let recs := nearest hdist rows lat lon topn none
        .ok { s with recommendations := some recs,
                     center := s.center.getD (lat, lon) |> some }
      | .vnum ρ =>
        let recs := nearest hdist rows lat lon topn (some ρ)
        .ok { s with recommendations := some recs,
                     center := s.center.getD (lat, lon) |> some }
      | .vstr _ => .error "TypeError: '>' not supported between float and str"
    | none => .error "int() argument malformed"
  | _, _ => .error "float() argument malformed"

/-- Model of `nodes.agent_e` (Map Renderer).  The renderer collaborators (Leaflet,
optional Kakao, and the `try/except` error text) are abstracted into
`render`; with no recommendations the fixed empty-map notice is stored
without calling the renderer. -/
def agent_e (render : List Rec → Option (ℚ × ℚ) → String) (s : GraphState) :
    GraphState :=
  let recs := s.recommendations.getD []
  let center : Option (ℚ × ℚ) :=
    match s.center with
    | some c => some c
    | none =>
      match s.lat, s.lon with
      | some la, some lo =>
        match pyFloatV la, pyFloatV lo with
        | some a, some b => some (a, b)
        | _, _ => none
      | _, _ => none
  if recs = [] then
    { s with map_html := some "<p style='color:gray'>표시할 추천 결과가 없습니다.</p>" }
  else
    { s with map_html := some (render recs center) }

/-- The fixed guidance answer of agent D for empty recommendations. -/
def noResultsAnswer : String :=
  "추천 결과가 없어 답변을 생성할 수 없습니다. 기준 좌표 또는 반경 조건을 확인해 주세요."

/-- Model of `nodes.agent_d` (Answer Synthesizer).  `llm` models
`_llm_answer_azure`; `None` (or an empty answer) falls back to the
deterministic template. -/
def agent_d (llm : String → List Rec → Option String) (s : GraphState) :
    GraphState :=
  let question := strOrEmpty s.question
  let recs := s.recommendations.getD []
  let answer :=
    if recs = [] then noResultsAnswer
    else
      let a := (llm question recs).getD ""
      if a = "" then templateAnswer recs else a
  { s with answer := some answer,
           sources := some (recs.map fun r => ⟨r.TITLE, r.URL⟩) }

/-- The device/manual coordinate-resolution block of
`nodes.origin_resolver_node`: yields the resolved `(lat, lon, label)` or
the branch's `ValueError`. -/
def resolveOriginCoords (mode : String) (s : GraphState) :
    Except String (ℚ × ℚ × String) :=
  if mode = "device" then
    match s.origin_lat, s.origin_lon with
    | some lv, some wv =>
      if lv = .vnone ∨ wv = .vnone ∨ ¬ validate_coords lv wv then
        .error "[Agent O] device 모드에서 유효한 좌표를 가져오지 못했습니다."
      else
        match pyFloatV lv, pyFloatV wv with
        | some la, some lo =>
          .ok (la, lo, (if strOrEmpty s.origin_label = "" then "내 위치"
                        else strOrEmpty s.origin_label))
        | _, _ => .error "[Agent O] device 모드에서 유효한 좌표를 가져오지 못했습니다."
    | _, _ => .error "[Agent O] device 모드에서 유효한 좌표를 가져오지 못했습니다."
  else
    let label := strOrEmpty s.origin_label
    match (if label ≠ "" then get_preset_coord label else none) with
    | some (la, lo) => .ok (la, lo, label)
    | none =>
      match s.origin_lat, s.origin_lon with
      | some lv, some wv =>
        if lv = .vnone ∨ wv = .vnone ∨ ¬ validate_coords lv wv then
          .error "[Agent O] manual 모드에서 좌표가 없거나 잘못되었습니다."
        else
          match pyFloatV lv, pyFloatV wv with
          | some la, some lo =>
            .ok (la, lo, (if label = "" then "사용자 지정" else label))
          | _, _ => .error "[Agent O] manual 모드에서 좌표가 없거나 잘못되었습니다."
      | _, _ => .error "[Agent O] manual 모드에서 좌표가 없거나 잘못되었습니다."

/-- The value the origin resolver stores under `radius_km` (the default
injection of lines 255–260 of `nodes.py`): key absent defaults to `3.0`;
a `None` value, or one `float()` rejects, becomes `None`; a parseable
value becomes its float. -/
def resolvedRadius (rk : Option PyVal) : PyVal :=
  match rk.getD (.vnum 3) with
  | .vnone => .vnone
  | v => match pyFloatV v with
    | some q => .vnum q
    | none => .vnone

/-- Model of `nodes.origin_resolver_node` (Agent O).  Fails (`raise ValueError`) on a
bad mode or unusable coordinates; injects defaults for `radius_km`/`topn`;
writes the resolved origin and the `lat`/`lon` keys agent C consumes. -/
def origin_resolver_node (s : GraphState) : Except String GraphState :=
  let mode := pyLower (pyStrip (strOrEmpty s.origin_mode))
  if mode ≠ "device" ∧ mode ≠ "manual" then
    .error "[Agent O] origin_mode가 'device' 또는 'manual'이 아닙니다."
  else
    match resolveOriginCoords mode s with
    | .error e => .error e
    | .ok (la, lo, origin_label) =>
      let topn : ℤ := (pyIntV (s.topn.getD (.vnum 5))).getD 5
      .ok { s with origin_mode := some mode,
                   origin_label := some origin_label,
                   origin_lat := some (.vnum la),
                   origin_lon := some (.vnum lo),
                   lat := some (.vnum la),
                   lon := some (.vnum lo),
                   radius_km := some (resolvedRadius s.radius_km),
                   topn := some (.vnum (topn : ℚ)) }

/-- The `radius_km` block of `graph.ensure_origin_valid`: an absent key,
`None`, or the empty string is allowed; anything else must parse to a
float that is `≥ 0`. -/
def radiusCheck (rk? : Option PyVal) : Except String Unit :=
  match rk? with
  | none => .ok ()
  | some rk =>
    if rk = .vnone ∨ rk = .vstr "" then .ok ()
    else
      match pyFloatV rk with
      | none => .error "[Agent O] radius_km은 숫자여야 합니다."
      | some v =>
        if v < 0 then .error "[Agent O] radius_km은 0 이상이어야 합니다."
        else .ok ()

/-- Model of `graph.ensure_origin_valid`: the validation gate.  Checks mode,
numeric in-range origin coordinates, `radius_km` (`None`/`""` allowed,
otherwise parseable and `≥ 0`), and `topn` (parseable integer `≥ 1`).
Raising is modelled as `Except.error`. -/
def ensure_origin_valid (s : GraphState) : Except String Unit :=
  let mode := pyLower (pyStrip (strOrEmpty s.origin_mode))
  if mode ≠ "device" ∧ mode ≠ "manual" then
    .error "[Agent O] origin_mode는 'device' 또는 'manual'이어야 합니다."
  else
    match pyFloat s.origin_lat, pyFloat s.origin_lon with
    | some lat, some lon =>
      if ¬ (-90 ≤ lat ∧ lat ≤ 90 ∧ -180 ≤ lon ∧ lon ≤ 180) then
        .error "[Agent O] 좌표 범위를 벗어났습니다 (lat[-90,90], lon[-180,180])."
      else
        match radiusCheck s.radius_km with
        | .error e => .error e
        | .ok _ =>
          match pyIntV (s.topn.getD (.vnum 5)) with
          | none => .error "[Agent O] topn은 정수여야 합니다."
          | some t =>
            if t < 1 then .error "[Agent O] topn은 1 이상이어야 합니다."
            else .ok ()
    | _, _ => .error "[Agent O] origin_lat / origin_lon이 유효한 숫자가 아닙니다."

/-- The initial state `graph.run_o_to_d` builds from its keyword
arguments (the `float(...)`/`int(...)` coercions are identities on the
already-typed arguments). -/
def initStateO (rows : List Row) (origin_mode : String) (origin_lat origin_lon : ℚ)
    (origin_label : String) (question : String) (topn : ℤ) (radius_km : Option ℚ)
    (map_provider : Option String) : GraphState :=
  { rows := some rows,
    origin_mode := some origin_mode,
    origin_lat := some (.vnum origin_lat),
    origin_lon := some (.vnum origin_lon),
    origin_label := some origin_label,
    topn := some (.vnum (topn : ℚ)),
    radius_km := some (match radius_km with | some q => .vnum q | none => .vnone),
    question := some question,
    map_provider := match map_provider with
      | some p => if p = "" then none else some p
      | none => none }

deriving instance DecidableEq for Except

/-- The outcome of a `run_o_to_d` invocation, instrumented with the list of
pipeline stages that actually executed (in order) so that
execution-order properties can be stated; `result` alone is what the
source function returns. -/
structure RunResult where
  result : Except String GraphState
  stagesRun : List String
deriving DecidableEq

/-- Model of `graph.run_o_to_d`: build the initial state, run the validation gate
`ensure_origin_valid` (failure aborts everything), then the compiled
O → C → E → D graph; a stage exception aborts the remaining stages. -/
def run_o_to_d (hdist : ℚ → ℚ → ℚ → ℚ → ℚ)
    (llm : String → List Rec → Option String)
    (render : List Rec → Option (ℚ × ℚ) → String)
    (rows : List Row) (origin_mode : String) (origin_lat origin_lon : ℚ)
    (origin_label : String) (question : String) (topn : ℤ)
    (radius_km : Option ℚ) (map_provider : Option String) : RunResult :=
  let s := initStateO rows origin_mode origin_lat origin_lon origin_label
    question topn radius_km map_provider
  match ensure_origin_valid s with
  | .error e => ⟨.error e, []⟩
  | .ok _ =>
    match origin_resolver_node s with
    | .error e => ⟨.error e, ["AgentO_OriginResolver"]⟩
    | .ok s1 =>
      match agent_c hdist s1 with
      | .error e => ⟨.error e, ["AgentO_OriginResolver", "AgentC_Recommender"]⟩
      | .ok s2 =>
        ⟨.ok (agent_d llm (agent_e render s2)),
         ["AgentO_OriginResolver", "AgentC_Recommender", "AgentE_Map", "AgentD_Answer"]⟩

/-! ## `app/services/rag.py`

Vectors are real-valued (`numpy` float arrays).  The embedding backend is
abstracted as the query-encoding function the active embedder provides
(`get_embedder`'s fallback chain is outside this file's claims); the
document vectors are whatever that backend returned at build time. -/

/-- The query-encoding capability of the active embedder
(`embedder.encode_query`). -/
def Embedder : Type := String → List ℝ

/-- A corpus row as read by `build_index` / `_concat_fields`. -/
structure RagRow where
  TITLE : Option String := none
  CONTENTS : Option String := none
  OPERATING_TIME : Option String := none
  ENTR_FEE : Option String := none
  SUBWAY : Option String := none
  BUS : Option String := none
  PARKING_INFO : Option String := none
  ADDR : Option String := none
  URL : Option String := none
deriving DecidableEq

/-- An indexed document (`_INDEX["docs"]` entries). -/
structure Doc where
  id : ℕ
  title : String
  url : String
  text : String
  addr : Option String
  operating : Option String
  fee : Option String
deriving DecidableEq

/-- The process-wide index `_INDEX` (docs, embeddings matrix, active
embedder; the latter two are `None` when unbuilt/cleared). -/
structure RagIndex where
  docs : List Doc
  embeddings : Option (List (List ℝ))
  embedder : Option Embedder

/-- A search hit (`TITLE`, `URL`, `SNIPPET`, `SCORE`). -/
structure Hit where
  TITLE : String
  URL : String
  SNIPPET : String
  SCORE : ℝ

/-- Model of `rag._concat_fields`: join the truthy fields with `" | "`. -/
def _concat_fields (r : RagRow) : String :=
  String.intercalate " | "
    (([r.TITLE, r.CONTENTS, r.OPERATING_TIME, r.ENTR_FEE, r.SUBWAY, r.BUS,
       r.PARKING_INFO, r.ADDR, r.URL]).filterMap fun v =>
      v.bind fun t => if t = "" then none else some t)

/-- Model of `rag._make_snippet`: flatten newlines, strip, truncate to 160
characters with an ellipsis marker when truncated. -/
def _make_snippet (text : String) (length : ℕ := 160) : String :=
  let s := pyStripList ((text.data).map fun c => if c = '\n' then ' ' else c)
  String.mk (s.take length) ++ (if length < s.length then "…" else "")

/-- Model of `rag.build_index`: an empty row list clears the index; otherwise the
docs, the document vectors and the active embedder are installed together.
`get_embedder`'s backend selection is the parameter `ge`. -/
def build_index (ge : List String → Embedder × List (List ℝ))
    (rows : List RagRow) : RagIndex :=
  if rows = [] then ⟨[], none, none⟩
  else
    let docs := rows.enum.map fun ir =>
      Doc.mk ir.1 (pyStrip (strOrEmpty ir.2.TITLE)) (pyStrip (strOrEmpty ir.2.URL))
        (_concat_fields ir.2) ir.2.ADDR ir.2.OPERATING_TIME ir.2.ENTR_FEE
    let corpus := rows.map _concat_fields
    ⟨docs, some (ge corpus).2, some (ge corpus).1⟩

/-- Model of `np.linalg.norm`: Euclidean norm of a vector. -/
noncomputable def vnorm (v : List ℝ) : ℝ := Real.sqrt ((v.map fun x => x * x).sum)

/-- Dot product of two vectors (`doc_mat @ q_vec`, row-wise). -/
def dotProd (a b : List ℝ) : ℝ := (List.zipWith (· * ·) a b).sum

/-- The cosine-score vector `search` computes: all zeros when the query
vector has zero norm, otherwise `dot/(‖d‖·‖q‖)` per document with `0`
substituted where the document norm is not positive (`np.where`). -/
noncomputable def scoresOf (mat : List (List ℝ)) (qv : List ℝ) : List ℝ :=
  if vnorm qv = 0 then List.replicate mat.length 0
  else mat.map fun dv =>
    if 0 < vnorm dv then dotProd dv qv / (vnorm dv * vnorm qv) else 0

/-- Contract of `np.argsort(-scores)` (numpy's default `quicksort` kind):
the output is some permutation of the row indices ordered by descending
score.  numpy documents nothing about the relative order of equal
scores — the sort is not stable — so nothing more may be assumed. -/
def IsArgsortDesc (scores : List ℝ) (idxs : List ℕ) : Prop :=
  List.Perm idxs (List.range scores.length) ∧
  List.Pairwise (fun i j => scores.getD j 0 ≤ scores.getD i 0) idxs

/-- The top-k index list `idxs` of `rag.search`
(`np.argsort(-scores)[:k]`).  The argsort itself is the external numpy
collaborator, passed as the parameter `argsort`; a faithful
instantiation satisfies `IsArgsortDesc` but carries no tie-order
guarantee. -/
noncomputable def searchIdxs (argsort : List ℝ → List ℕ) (idx : RagIndex)
    (query : String) (k : ℕ) : List ℕ :=
  match idx.embeddings, idx.embedder with
  | some mat, some emb =>
    if query = "" ∨ idx.docs = [] then []
    else (argsort (scoresOf mat (emb query))).take k
  | _, _ => []

/-- Model of `rag.search`: `[]` when the query is empty, the doc list is empty, or
no embeddings/embedder are installed; otherwise the top-k docs by cosine
score as `{TITLE, URL, SNIPPET, SCORE}`.  `argsort` is numpy's
`np.argsort` on the negated scores (see `searchIdxs`). -/
noncomputable def search (argsort : List ℝ → List ℕ) (idx : RagIndex)
    (query : String) (k : ℕ) : List Hit :=
  match idx.embeddings, idx.embedder with
  | some mat, some emb =>
    if query = "" ∨ idx.docs = [] then []
    else
      let scores := scoresOf mat (emb query)
      (searchIdxs argsort idx query k).map fun i =>
        let d := idx.docs.getD i ⟨0, "", "", "", none, none, none⟩
        ⟨d.title, d.url, _make_snippet d.text, scores.getD i 0⟩
  | _, _ => []

/-! ## Claims -/

/-- Claim C6: For every coordinate `a`, `haversine_km a a = 0`, and for all
coordinates `a`, `b`, `haversine_km a b = haversine_km b a`: the
great-circle distance is zero on identical points and symmetric. -/
theorem claim_C6 :
    (∀ lat lon : ℝ, haversine_km lat lon lat lon = 0) ∧
    (∀ lat1 lon1 lat2 lon2 : ℝ,
      haversine_km lat1 lon1 lat2 lon2 = haversine_km lat2 lon2 lat1 lon1) := by
  have harg : Complex.arg ⟨1, 0⟩ = 0 := by
    have h1 : (⟨1, 0⟩ : ℂ) = 1 := by
      apply Complex.ext <;> simp
    rw [h1, Complex.arg_one]
  constructor
  · intro lat lon
    simp only [haversine_km, radians, atan2, sub_self, zero_mul, zero_div,
      Real.sin_zero, ne_eq, OfNat.ofNat_ne_zero, not_false_eq_true, zero_pow,
      mul_zero, add_zero, Real.sqrt_zero, sub_zero, Real.sqrt_one]
    rw [harg]
    ring
  · intro lat1 lon1 lat2 lon2
    simp only [haversine_km, radians, atan2]
    have hsin : ∀ x y : ℝ, Real.sin ((x - y) / 2) ^ 2 = Real.sin ((y - x) / 2) ^ 2 := by
      intro x y
      rw [show (x - y) / 2 = -((y - x) / 2) by ring, Real.sin_neg]
      ring
    have hl : (lon2 - lon1) * Real.pi / 180 / 2 = -((lon1 - lon2) * Real.pi / 180 / 2) := by
      ring
    rw [hsin (lat2 * Real.pi / 180) (lat1 * Real.pi / 180), hl, Real.sin_neg]
    ring_nf

/-- Claim C4: A catalog row whose `LA` or `LO` is missing, unparsable, `None`,
or exactly `0.0` contributes nothing to `nearest`'s result: removing it
from the catalog leaves the ranking unchanged, for every origin, `topn`
and radius. -/
theorem claim_C4 (hdist : ℚ → ℚ → ℚ → ℚ → ℚ) (pre post : List Row) (r : Row)
    (lat lon : ℚ) (topn : ℤ) (radius_km : Option ℚ)
    (h : _safe_float r.LA = none ∨ _safe_float r.LO = none) :
    nearest hdist (pre ++ r :: post) lat lon topn radius_km =
      nearest hdist (pre ++ post) lat lon topn radius_km := by
  have hcand : ∀ rows, candidatesOf hdist rows lat lon radius_km =
      rows.filterMap (fun r =>
        match _safe_float r.LA, _safe_float r.LO with
        | some la, some lo =>
          let d := hdist lat lon la lo
          match radius_km with
          | some ρ =>
            if ρ < d then none
            else some ⟨pyStrip (strOrEmpty r.TITLE), pyStrip (strOrEmpty r.ADDR),
              pyStrip (strOrEmpty r.OPERATING_TIME), pyStrip (strOrEmpty r.URL), la, lo, round3 d⟩
          | none => some ⟨pyStrip (strOrEmpty r.TITLE), pyStrip (strOrEmpty r.ADDR),
              pyStrip (strOrEmpty r.OPERATING_TIME), pyStrip (strOrEmpty r.URL), la, lo, round3 d⟩
        | _, _ => none) := fun _ => rfl
  have hnone : (match _safe_float r.LA, _safe_float r.LO with
      | some la, some lo =>
        let d := hdist lat lon la lo
        match radius_km with
        | some ρ =>
          if ρ < d then none
          else some (⟨pyStrip (strOrEmpty r.TITLE), pyStrip (strOrEmpty r.ADDR),
            pyStrip (strOrEmpty r.OPERATING_TIME), pyStrip (strOrEmpty r.URL), la, lo,
            round3 d⟩ : Rec)
        | none => some ⟨pyStrip (strOrEmpty r.TITLE), pyStrip (strOrEmpty r.ADDR),
            pyStrip (strOrEmpty r.OPERATING_TIME), pyStrip (strOrEmpty r.URL), la, lo, round3 d⟩
      | _, _ => none) = none := by
    rcases h with h | h
    · rw [h]
    · rw [h]
      cases _safe_float r.LA <;> rfl
  unfold nearest
  rw [hcand, hcand, List.filterMap_append, List.filterMap_append, List.filterMap_cons, hnone]

/-- Witness for claim C4: a row with `LA = 0.0` between two good rows is ignored. -/
theorem claim_C4_witness :
    (_safe_float (some (PyVal.vnum 0)) = none ∨
      _safe_float (some (PyVal.vnum 1)) = none) ∧
    nearest (fun _ _ _ _ => 0)
        ([({LA := some (.vnum 2), LO := some (.vnum 2)} : Row)] ++
          ({LA := some (.vnum 0), LO := some (.vnum 1)} : Row) ::
            [({LA := some (.vnum 1), LO := some (.vnum 1)} : Row)]) 0 0 5 none =
      nearest (fun _ _ _ _ => 0)
        ([({LA := some (.vnum 2), LO := some (.vnum 2)} : Row)] ++
          [({LA := some (.vnum 1), LO := some (.vnum 1)} : Row)]) 0 0 5 none :=
  ⟨Or.inl (by decide),
   claim_C4 (fun _ _ _ _ => 0) [{LA := some (.vnum 2), LO := some (.vnum 2)}]
     [{LA := some (.vnum 1), LO := some (.vnum 1)}]
     {LA := some (.vnum 0), LO := some (.vnum 1)} 0 0 5 none (Or.inl (by decide))⟩

/-- Claim C1: `nearest` returns at most `max 1 topn` entries; with a radius
given, every returned entry's distance from the origin is within the
radius; the result is sorted ascending by distance (`DIST_KM`); and ties
are broken by original catalog order: for each distance value, the
equal-distance entries of the result are an initial segment, in order, of
the equal-distance entries of the candidate list, which itself preserves
catalog order. -/
theorem claim_C1 (hdist : ℚ → ℚ → ℚ → ℚ → ℚ) (rows : List Row) (lat lon : ℚ)
    (topn : ℤ) (radius_km : Option ℚ) :
    (nearest hdist rows lat lon topn radius_km).length ≤ (max 1 topn).toNat ∧
    (∀ rec ∈ nearest hdist rows lat lon topn radius_km, ∀ ρ, radius_km = some ρ →
      hdist lat lon rec.LA rec.LO ≤ ρ) ∧
    List.Sorted recLE (nearest hdist rows lat lon topn radius_km) ∧
    (∀ q : ℚ, ∃ rest,
      (candidatesOf hdist rows lat lon radius_km).filter
          (fun rec => decide (rec.DIST_KM = q)) =
        (nearest hdist rows lat lon topn radius_km).filter
          (fun rec => decide (rec.DIST_KM = q)) ++ rest) := by
  set C := candidatesOf hdist rows lat lon radius_km with hC
  set S := List.insertionSort recLE C with hS
  set n := (max 1 topn).toNat with hn
  have hnear : nearest hdist rows lat lon topn radius_km = S.take n := rfl
  refine ⟨?_, ?_, ?_, ?_⟩
  · rw [hnear]
    exact List.length_take_le n S
  · intro rec hrec ρ hρ
    have hrecS : rec ∈ S := List.mem_of_mem_take (hnear ▸ hrec)
    have hrecC : rec ∈ C := (List.perm_insertionSort recLE C).mem_iff.mp hrecS
    obtain ⟨r, -, hfr⟩ := List.mem_filterMap.mp hrecC
    subst hρ
    cases h1 : _safe_float r.LA with
    | none => rw [h1] at hfr; cases _safe_float r.LO <;> simp at hfr
    | some la =>
      cases h2 : _safe_float r.LO with
      | none => rw [h1, h2] at hfr; simp at hfr
      | some lo =>
        rw [h1, h2] at hfr
        simp only at hfr
        by_cases hd : ρ < hdist lat lon la lo
        · rw [if_pos hd] at hfr
          simp at hfr
        · rw [if_neg hd] at hfr
          obtain rfl := Option.some.inj hfr
          exact le_of_not_lt hd
  · rw [hnear]
    exact List.Pairwise.sublist (List.take_sublist n S)
      (List.sorted_insertionSort recLE C)
  · intro q
    set p : Rec → Bool := fun rec => decide (rec.DIST_KM = q) with hp
    have hpair : (C.filter p).Pairwise recLE := by
      apply List.pairwise_of_forall_mem_list
      intro a ha b hb
      have ha' : a.DIST_KM = q := by
        have := (List.mem_filter.mp ha).2
        simpa [hp] using this
      have hb' : b.DIST_KM = q := by
        have := (List.mem_filter.mp hb).2
        simpa [hp] using this
      show a.DIST_KM ≤ b.DIST_KM
      rw [ha', hb']
    have hsub : List.Sublist (C.filter p) S :=
      List.sublist_insertionSort hpair (List.filter_sublist C)
    have hself : (C.filter p).filter p = C.filter p :=
      List.filter_eq_self.mpr fun a ha => (List.mem_filter.mp ha).2
    have hsub2 : List.Sublist (C.filter p) (S.filter p) := hself ▸ hsub.filter p
    have hperm : List.Perm (S.filter p) (C.filter p) :=
      (List.perm_insertionSort recLE C).filter p
    have heq : C.filter p = S.filter p := hsub2.eq_of_length hperm.length_eq.symm
    refine ⟨(S.drop n).filter p, ?_⟩
    rw [hnear, heq, ← List.filter_append, List.take_append_drop]

/-- Witness for claim C1: a concrete catalog with a radius where every part of
`claim_C1` is discharged at explicit inputs. -/
theorem claim_C1_witness :
    ((nearest (fun _ _ la _ => la)
        [{LA := some (.vnum 1), LO := some (.vnum 1)},
         {LA := some (.vnum 7), LO := some (.vnum 1)},
         {LA := some (.vnum 2), LO := some (.vnum 1)}] 0 0 2 (some 5)).length ≤
      (max 1 (2 : ℤ)).toNat) ∧
    ((fun _ _ la _ => la : ℚ → ℚ → ℚ → ℚ → ℚ) 0 0
        (⟨"", "", "", "", 1, 1, 1⟩ : Rec).LA (⟨"", "", "", "", 1, 1, 1⟩ : Rec).LO ≤ 5) ∧
    List.Sorted recLE (nearest (fun _ _ la _ => la)
        [{LA := some (.vnum 1), LO := some (.vnum 1)},
         {LA := some (.vnum 7), LO := some (.vnum 1)},
         {LA := some (.vnum 2), LO := some (.vnum 1)}] 0 0 2 (some 5)) ∧
    (∃ rest,
      (candidatesOf (fun _ _ la _ => la)
          [{LA := some (.vnum 1), LO := some (.vnum 1)},
           {LA := some (.vnum 7), LO := some (.vnum 1)},
           {LA := some (.vnum 2), LO := some (.vnum 1)}] 0 0 (some 5)).filter
          (fun rec => decide (rec.DIST_KM = 1)) =
        (nearest (fun _ _ la _ => la)
            [{LA := some (.vnum 1), LO := some (.vnum 1)},
             {LA := some (.vnum 7), LO := some (.vnum 1)},
             {LA := some (.vnum 2), LO := some (.vnum 1)}] 0 0 2 (some 5)).filter
          (fun rec => decide (rec.DIST_KM = 1)) ++ rest) := by
  have h := claim_C1 (fun _ _ la _ => la)
    [{LA := some (.vnum 1), LO := some (.vnum 1)},
     {LA := some (.vnum 7), LO := some (.vnum 1)},
     {LA := some (.vnum 2), LO := some (.vnum 1)}] 0 0 2 (some 5)
  exact ⟨h.1, h.2.1 ⟨"", "", "", "", 1, 1, 1⟩ (by decide) 5 rfl, h.2.2.1, h.2.2.2 1⟩

/-- Shape of a successful `origin_resolver_node` run: the output is the
input with the origin keys, `lat`/`lon`, and the defaulted
`radius_km`/`topn` overwritten. -/
theorem origin_resolver_node_ok {s out : GraphState}
    (h : origin_resolver_node s = .ok out) :
    ∃ la lo lbl, out =
      { s with origin_mode := some (pyLower (pyStrip (strOrEmpty s.origin_mode))),
               origin_label := some lbl,
               origin_lat := some (.vnum la),
               origin_lon := some (.vnum lo),
               lat := some (.vnum la),
               lon := some (.vnum lo),
               radius_km := some (resolvedRadius s.radius_km),
               topn := some (.vnum (((pyIntV (s.topn.getD (.vnum 5))).getD 5 : ℤ) : ℚ)) } := by
  unfold origin_resolver_node at h
  by_cases hc : pyLower (pyStrip (strOrEmpty s.origin_mode)) ≠ "device" ∧
      pyLower (pyStrip (strOrEmpty s.origin_mode)) ≠ "manual"
  · rw [if_pos hc] at h
    simp at h
  · rw [if_neg hc] at h
    cases hres : resolveOriginCoords (pyLower (pyStrip (strOrEmpty s.origin_mode))) s with
    | error e => rw [hres] at h; simp at h
    | ok x =>
      obtain ⟨la, lo, lbl⟩ := x
      rw [hres, Except.ok.injEq] at h
      exact ⟨la, lo, lbl, h.symm⟩

/-- Shape of a successful `agent_c` run: the output is the input with
`recommendations` written and `center` defaulted. -/
theorem agent_c_ok {hdist : ℚ → ℚ → ℚ → ℚ → ℚ} {s out : GraphState}
    (h : agent_c hdist s = .ok out) :
    ∃ recs ctr, out = { s with recommendations := some recs, center := some ctr } := by
  unfold agent_c at h
  split at h
  · split at h
    · dsimp only at h
      split at h
      · rw [Except.ok.injEq] at h
        exact ⟨_, _, h.symm⟩
      · rw [Except.ok.injEq] at h
        exact ⟨_, _, h.symm⟩
      · simp at h
    · simp at h
  · simp at h

/-- Key preservation relation between two contexts: every key present in
`s` is present in `t`. -/
def stateKeysLE (s t : GraphState) : Prop :=
  (s.rows.isSome → t.rows.isSome) ∧ (s.lat.isSome → t.lat.isSome) ∧
  (s.lon.isSome → t.lon.isSome) ∧ (s.topn.isSome → t.topn.isSome) ∧
  (s.radius_km.isSome → t.radius_km.isSome) ∧
  (s.question.isSome → t.question.isSome) ∧
  (s.center.isSome → t.center.isSome) ∧
  (s.map_provider.isSome → t.map_provider.isSome) ∧
  (s.recommendations.isSome → t.recommendations.isSome) ∧
  (s.map_html.isSome → t.map_html.isSome) ∧
  (s.answer.isSome → t.answer.isSome) ∧ (s.sources.isSome → t.sources.isSome) ∧
  (s.origin_mode.isSome → t.origin_mode.isSome) ∧
  (s.origin_label.isSome → t.origin_label.isSome) ∧
  (s.origin_lat.isSome → t.origin_lat.isSome) ∧
  (s.origin_lon.isSome → t.origin_lon.isSome) ∧
  (s.error.isSome → t.error.isSome)

instance (s t : GraphState) : Decidable (stateKeysLE s t) := by
  unfold stateKeysLE
  infer_instance

/-- Claim C5: Every pipeline stage function returns a context containing every
key present in its input context: on success, `origin_resolver_node` and
`agent_c` only add or overwrite keys, and `agent_e`/`agent_d` always do. -/
theorem claim_C5 (hdist : ℚ → ℚ → ℚ → ℚ → ℚ)
    (llm : String → List Rec → Option String)
    (render : List Rec → Option (ℚ × ℚ) → String) :
    (∀ s out, origin_resolver_node s = .ok out → stateKeysLE s out) ∧
    (∀ s out, agent_c hdist s = .ok out → stateKeysLE s out) ∧
    (∀ s, stateKeysLE s (agent_e render s)) ∧
    (∀ s, stateKeysLE s (agent_d llm s)) := by
  refine ⟨?_, ?_, ?_, ?_⟩
  · intro s out h
    obtain ⟨la, lo, lbl, rfl⟩ := origin_resolver_node_ok h
    simp [stateKeysLE]
  · intro s out h
    obtain ⟨recs, ctr, rfl⟩ := agent_c_ok h
    simp [stateKeysLE]
  · intro s
    by_cases hrec : s.recommendations.getD [] = [] <;>
      simp [agent_e, hrec, stateKeysLE]
  · intro s
    unfold agent_d
    simp [stateKeysLE]

/-- Witness for claim C5: key preservation discharged on concrete successful runs
of all four stages. -/
theorem claim_C5_witness :
    stateKeysLE { origin_mode := some "device", origin_lat := some (.vnum 37),
                  origin_lon := some (.vnum 127) }
      { origin_mode := some "device", origin_label := some "내 위치",
        origin_lat := some (.vnum 37), origin_lon := some (.vnum 127),
        lat := some (.vnum 37), lon := some (.vnum 127),
        radius_km := some (.vnum 3), topn := some (.vnum 5) } ∧
    stateKeysLE { lat := some (.vnum 0), lon := some (.vnum 0) }
      { lat := some (.vnum 0), lon := some (.vnum 0),
        recommendations := some [], center := some (0, 0) } ∧
    stateKeysLE { question := some "q" }
      (agent_e (fun _ _ => "html") { question := some "q" }) ∧
    stateKeysLE { question := some "q" }
      (agent_d (fun _ _ => none) { question := some "q" }) := by
  have h := claim_C5 (fun _ _ _ _ => 0) (fun _ _ => none) (fun _ _ => "html")
  exact ⟨h.1 _ _ (by decide), h.2.1 _ _ (by decide), h.2.2.1 _, h.2.2.2 _⟩

/-- Device-mode state with a present, non-empty but unparsable
`radius_km`. -/
def cexRadiusStr : GraphState :=
  { origin_mode := some "device", origin_lat := some (.vnum 37),
    origin_lon := some (.vnum 127), radius_km := some (.vstr "abc") }

/-- Device-mode state with `radius_km` absent. -/
def cexRadiusAbsent : GraphState :=
  { origin_mode := some "device", origin_lat := some (.vnum 37),
    origin_lon := some (.vnum 127) }

/-- The resolver's output on `cexRadiusStr`. -/
def cexRadiusStrOut : GraphState :=
  { origin_mode := some "device", origin_label := some "내 위치",
    origin_lat := some (.vnum 37), origin_lon := some (.vnum 127),
    lat := some (.vnum 37), lon := some (.vnum 127),
    radius_km := some .vnone, topn := some (.vnum 5) }

/-- Counterexample for claim C3:  With `radius_km = "abc"` (present, non-empty,
not parseable as a float) the resolver does *not* fail with
`InvalidRadius`: it succeeds and resolves the radius to `None`.  And with
`radius_km` absent the resolved radius is the default `3.0`, not null. -/
theorem claim_C3_counterexample :
    ((origin_resolver_node cexRadiusStr).isOk = true ∧
      (origin_resolver_node cexRadiusStr).toOption.map GraphState.radius_km =
        some (some PyVal.vnone)) ∧
    (origin_resolver_node cexRadiusAbsent).toOption.map GraphState.radius_km =
      some (some (PyVal.vnum 3)) := by
  decide

/-- Claim C3, amended:  The resolver never fails because of `radius_km`:
an absent key defaults to `3.0`; a present value that `float()` rejects
(including `None` and the empty string) resolves to `None`; a parseable
value is passed through as its float (no `≥ 0` check at this stage).
Success of the resolver is unaffected by the `radius_km` field. -/
theorem claim_C3 :
    (∀ s out, origin_resolver_node s = .ok out →
      (s.radius_km = none → out.radius_km = some (.vnum 3)) ∧
      (∀ v, s.radius_km = some v → pyFloatV v = none →
        out.radius_km = some .vnone) ∧
      (∀ v q, s.radius_km = some v → pyFloatV v = some q →
        out.radius_km = some (.vnum q))) ∧
    (∀ (s : GraphState) (v₁ v₂ : Option PyVal),
      (origin_resolver_node { s with radius_km := v₁ }).isOk =
      (origin_resolver_node { s with radius_km := v₂ }).isOk) := by
  constructor
  · intro s out h
    obtain ⟨la, lo, lbl, rfl⟩ := origin_resolver_node_ok h
    refine ⟨?_, ?_, ?_⟩
    · intro hnone
      simp [resolvedRadius, hnone, pyFloatV]
    · intro v hv hpf
      cases v with
      | vnum q => simp [pyFloatV] at hpf
      | vstr t =>
        simp only [pyFloatV] at hpf
        simp [resolvedRadius, hv, pyFloatV, hpf]
      | vnone => simp [resolvedRadius, hv]
    · intro v q hv hpf
      cases v with
      | vnum p =>
        simp only [pyFloatV, Option.some.injEq] at hpf
        simp [resolvedRadius, hv, pyFloatV, hpf]
      | vstr t =>
        simp only [pyFloatV] at hpf
        simp [resolvedRadius, hv, pyFloatV, hpf]
      | vnone => simp [pyFloatV] at hpf
  · intro s v₁ v₂
    have hres : ∀ v : Option PyVal,
        resolveOriginCoords (pyLower (pyStrip (strOrEmpty s.origin_mode)))
            { s with radius_km := v } =
          resolveOriginCoords (pyLower (pyStrip (strOrEmpty s.origin_mode))) s :=
      fun _ => rfl
    unfold origin_resolver_node
    simp only [hres]
    by_cases hc : pyLower (pyStrip (strOrEmpty s.origin_mode)) ≠ "device" ∧
        pyLower (pyStrip (strOrEmpty s.origin_mode)) ≠ "manual"
    · rw [if_pos hc, if_pos hc]
    · rw [if_neg hc, if_neg hc]
      cases resolveOriginCoords (pyLower (pyStrip (strOrEmpty s.origin_mode))) s with
      | error e => rfl
      | ok x =>
        obtain ⟨la, lo, lbl⟩ := x
        rfl

/-- Witness for claim C3: the amended behaviour discharged on `cexRadiusStr`. -/
theorem claim_C3_witness :
    cexRadiusStrOut.radius_km = some PyVal.vnone ∧
    (origin_resolver_node { cexRadiusStr with radius_km := some (.vnum (-5)) }).isOk =
      (origin_resolver_node { cexRadiusStr with radius_km := some (.vstr "zz") }).isOk :=
  ⟨(claim_C3.1 cexRadiusStr cexRadiusStrOut (by decide)).2.1 (.vstr "abc") rfl (by decide),
   claim_C3.2 cexRadiusStr (some (.vnum (-5))) (some (.vstr "zz"))⟩

/-- Claim C7: The resolver never fails because of `topn`: success is
unaffected by the `topn` field; an absent or unparsable `topn` silently
becomes the default `5`; a parseable `topn` is passed through as
`int(topn)` with no range check at this stage. -/
theorem claim_C7 :
    (∀ (s : GraphState) (v₁ v₂ : Option PyVal),
      (origin_resolver_node { s with topn := v₁ }).isOk =
      (origin_resolver_node { s with topn := v₂ }).isOk) ∧
    (∀ s out, origin_resolver_node s = .ok out →
      (s.topn = none → out.topn = some (.vnum 5)) ∧
      (∀ v, s.topn = some v → pyIntV v = none → out.topn = some (.vnum 5)) ∧
      (∀ v t, s.topn = some v → pyIntV v = some t →
        out.topn = some (.vnum (t : ℚ)))) := by
  constructor
  · intro s v₁ v₂
    have hres : ∀ v : Option PyVal,
        resolveOriginCoords (pyLower (pyStrip (strOrEmpty s.origin_mode)))
            { s with topn := v } =
          resolveOriginCoords (pyLower (pyStrip (strOrEmpty s.origin_mode))) s :=
      fun _ => rfl
    unfold origin_resolver_node
    simp only [hres]
    by_cases hc : pyLower (pyStrip (strOrEmpty s.origin_mode)) ≠ "device" ∧
        pyLower (pyStrip (strOrEmpty s.origin_mode)) ≠ "manual"
    · rw [if_pos hc, if_pos hc]
    · rw [if_neg hc, if_neg hc]
      cases resolveOriginCoords (pyLower (pyStrip (strOrEmpty s.origin_mode))) s with
      | error e => rfl
      | ok x =>
        obtain ⟨la, lo, lbl⟩ := x
        rfl
  · intro s out h
    obtain ⟨la, lo, lbl, rfl⟩ := origin_resolver_node_ok h
    refine ⟨?_, ?_, ?_⟩
    · intro hnone
      simp [hnone, pyIntV]
    · intro v hv hpi
      simp [hv, hpi]
    · intro v t hv hpi
      simp [hv, hpi]

/-- Device-mode state with an unparsable `topn`. -/
def cexTopnStr : GraphState :=
  { origin_mode := some "device", origin_lat := some (.vnum 37),
    origin_lon := some (.vnum 127), topn := some (.vstr "x") }

/-- The resolver's output on `cexTopnStr`. -/
def cexTopnStrOut : GraphState :=
  { origin_mode := some "device", origin_label := some "내 위치",
    origin_lat := some (.vnum 37), origin_lon := some (.vnum 127),
    lat := some (.vnum 37), lon := some (.vnum 127),
    radius_km := some (.vnum 3), topn := some (.vnum 5) }

/-- Witness for claim C7: a resolver run with an unparsable `topn` that succeeds
with the default, and success unaffected by `topn` at concrete values. -/
theorem claim_C7_witness :
    cexTopnStrOut.topn = some (PyVal.vnum 5) ∧
    (origin_resolver_node { cexRadiusAbsent with topn := some (.vnum 0) }).isOk =
      (origin_resolver_node { cexRadiusAbsent with topn := some .vnone }).isOk :=
  ⟨(claim_C7.2 cexTopnStr cexTopnStrOut (by decide)).2.1 (.vstr "x") rfl (by decide),
   claim_C7.1 cexRadiusAbsent (some (.vnum 0)) (some .vnone)⟩

/-- Claim C2: The validation gate `ensure_origin_valid` rejects whenever the
mode does not normalize to device/manual, the origin coordinate is
non-numeric (missing, `None`, or unparsable) or out of range, `topn < 1`,
or `radius_km < 0`; and in `run_o_to_d`, a gate failure aborts the run
before any pipeline stage — in particular before Rank (agent C) —
executes. -/
theorem claim_C2 :
    (∀ s : GraphState,
      ((pyLower (pyStrip (strOrEmpty s.origin_mode)) ≠ "device" ∧
        pyLower (pyStrip (strOrEmpty s.origin_mode)) ≠ "manual") ∨
       pyFloat s.origin_lat = none ∨ pyFloat s.origin_lon = none ∨
       (∃ la, pyFloat s.origin_lat = some la ∧ ¬ (-90 ≤ la ∧ la ≤ 90)) ∨
       (∃ lo, pyFloat s.origin_lon = some lo ∧ ¬ (-180 ≤ lo ∧ lo ≤ 180)) ∨
       (∃ t, pyIntV (s.topn.getD (.vnum 5)) = some t ∧ t < 1) ∨
       (∃ rk v, s.radius_km = some rk ∧ rk ≠ .vnone ∧ rk ≠ .vstr "" ∧
         pyFloatV rk = some v ∧ v < 0) →
      (ensure_origin_valid s).isOk = false)) ∧
    (∀ (hdist : ℚ → ℚ → ℚ → ℚ → ℚ) (llm : String → List Rec → Option String)
      (render : List Rec → Option (ℚ × ℚ) → String) (rows : List Row)
      (mode : String) (olat olon : ℚ) (lbl q : String) (topn : ℤ)
      (ρ : Option ℚ) (mp : Option String),
      (ensure_origin_valid
        (initStateO rows mode olat olon lbl q topn ρ mp)).isOk = false →
      (run_o_to_d hdist llm render rows mode olat olon lbl q topn ρ mp).result.isOk
          = false ∧
      (run_o_to_d hdist llm render rows mode olat olon lbl q topn ρ mp).stagesRun
          = []) := by
  constructor
  · intro s h
    unfold ensure_origin_valid
    by_cases hmode : pyLower (pyStrip (strOrEmpty s.origin_mode)) ≠ "device" ∧
        pyLower (pyStrip (strOrEmpty s.origin_mode)) ≠ "manual"
    · rw [if_pos hmode]
      rfl
    · rw [if_neg hmode]
      rcases h with h | h | h | h | h | h | h
      · exact absurd h hmode
      · rw [h]
        cases pyFloat s.origin_lon <;> rfl
      · rw [h]
        cases pyFloat s.origin_lat <;> rfl
      · obtain ⟨la, hla, hnr⟩ := h
        rw [hla]
        cases hlon : pyFloat s.origin_lon with
        | none => rfl
        | some lo =>
          dsimp only
          rw [if_pos (fun hr => hnr ⟨hr.1, hr.2.1⟩)]
          rfl
      · obtain ⟨lo, hlo, hnr⟩ := h
        rw [hlo]
        cases hlat : pyFloat s.origin_lat with
        | none => rfl
        | some la =>
          dsimp only
          rw [if_pos (fun hr => hnr ⟨hr.2.2.1, hr.2.2.2⟩)]
          rfl
      · obtain ⟨t, ht, htlt⟩ := h
        cases hlat : pyFloat s.origin_lat with
        | none => rfl
        | some la =>
          cases hlon : pyFloat s.origin_lon with
          | none => rfl
          | some lo =>
            dsimp only
            by_cases hr : ¬ (-90 ≤ la ∧ la ≤ 90 ∧ -180 ≤ lo ∧ lo ≤ 180)
            · rw [if_pos hr]
              rfl
            · rw [if_neg hr]
              cases hrc : radiusCheck s.radius_km with
              | error e => rfl
              | ok u =>
                dsimp only
                rw [ht]
                dsimp only
                rw [if_pos htlt]
                rfl
      · obtain ⟨rk, v, hrk, hne, hne', hpf, hneg⟩ := h
        cases hlat : pyFloat s.origin_lat with
        | none => rfl
        | some la =>
          cases hlon : pyFloat s.origin_lon with
          | none => rfl
          | some lo =>
            dsimp only
            by_cases hr : ¬ (-90 ≤ la ∧ la ≤ 90 ∧ -180 ≤ lo ∧ lo ≤ 180)
            · rw [if_pos hr]
              rfl
            · rw [if_neg hr]
              have hrc : radiusCheck s.radius_km =
                  .error "[Agent O] radius_km은 0 이상이어야 합니다." := by
                unfold radiusCheck
                rw [hrk]
                dsimp only
                rw [if_neg (by simp [hne, hne']), hpf]
                dsimp only
                rw [if_pos hneg]
              rw [hrc]
              rfl
  · intro hdist llm render rows mode olat olon lbl q topn ρ mp h
    simp only [run_o_to_d]
    cases hg : ensure_origin_valid (initStateO rows mode olat olon lbl q topn ρ mp) with
    | error e => exact ⟨rfl, rfl⟩
    | ok u =>
      rw [hg] at h
      exact Bool.noConfusion h

/-- Witness for claim C2: the gate rejects a bad mode, and a run with `topn = 0`
aborts with the gate's error before any stage executes. -/
theorem claim_C2_witness :
    (ensure_origin_valid { origin_mode := some "nope" }).isOk = false ∧
    (run_o_to_d (fun _ _ _ _ => 0) (fun _ _ => none) (fun _ _ => "")
        [] "device" 37 127 "내 위치" "q" 0 (some 3) none).result.isOk = false ∧
    (run_o_to_d (fun _ _ _ _ => 0) (fun _ _ => none) (fun _ _ => "")
        [] "device" 37 127 "내 위치" "q" 0 (some 3) none).stagesRun = [] := by
  refine ⟨claim_C2.1 _ (Or.inl (by decide)), ?_, ?_⟩
  · exact (claim_C2.2 (fun _ _ _ _ => 0) (fun _ _ => none) (fun _ _ => "")
      [] "device" 37 127 "내 위치" "q" 0 (some 3) none (by decide)).1
  · exact (claim_C2.2 (fun _ _ _ _ => 0) (fun _ _ => none) (fun _ _ => "")
      [] "device" 37 127 "내 위치" "q" 0 (some 3) none (by decide)).2

/-- Claim C8: With empty recommendations, agent D returns the fixed guidance
message, the result does not depend on the remote LLM at all (no call is
attempted), and `sources` is empty; in every case `sources` is exactly one
`{TITLE, URL}` pair per recommendation, independent of which tier produced
the answer text. -/
theorem claim_C8 (llm llm' : String → List Rec → Option String) (s : GraphState) :
    ((s.recommendations = none ∨ s.recommendations = some []) →
      (agent_d llm s).answer = some noResultsAnswer ∧
      (agent_d llm s).sources = some [] ∧
      agent_d llm s = agent_d llm' s) ∧
    (agent_d llm s).sources =
      some ((s.recommendations.getD []).map fun r => SourceRef.mk r.TITLE r.URL) := by
  constructor
  · intro h
    have hrec : s.recommendations.getD [] = [] := by
      rcases h with h | h <;> simp [h]
    unfold agent_d
    simp [hrec]
  · rfl

/-- Witness for claim C8: empty recommendations with two different LLM tiers. -/
theorem claim_C8_witness :
    ((agent_d (fun _ _ => some "remote") { recommendations := some [] }).answer =
      some noResultsAnswer) ∧
    ((agent_d (fun _ _ => some "remote") { recommendations := some [] }).sources =
      some []) ∧
    agent_d (fun _ _ => some "remote") { recommendations := some [] } =
      agent_d (fun _ _ => none) { recommendations := some [] } :=
  (claim_C8 (fun _ _ => some "remote") (fun _ _ => none)
    { recommendations := some [] }).1 (Or.inr rfl)

/-- Claim C9: `search` returns `[]` whenever the index is empty — including
right after `build_index []` — the query is empty, or no
embeddings/backend are installed; and a zero-norm vector on either side
of the cosine yields score `0` for that pair instead of a division
fault. -/
theorem claim_C9 (argsort : List ℝ → List ℕ) :
    (∀ (ge : List String → Embedder × List (List ℝ)) (q : String) (k : ℕ),
      search argsort (build_index ge []) q k = []) ∧
    (∀ (idx : RagIndex) (k : ℕ), search argsort idx "" k = []) ∧
    (∀ (docs : List Doc) (mat : Option (List (List ℝ))) (q : String) (k : ℕ),
      search argsort ⟨docs, mat, none⟩ q k = []) ∧
    (∀ (docs : List Doc) (emb : Option Embedder) (q : String) (k : ℕ),
      search argsort ⟨docs, none, emb⟩ q k = []) ∧
    (∀ (mat : List (List ℝ)) (emb : Embedder) (q : String) (k : ℕ),
      search argsort ⟨[], some mat, some emb⟩ q k = []) ∧
    (∀ (mat : List (List ℝ)) (qv : List ℝ), vnorm qv = 0 →
      scoresOf mat qv = List.replicate mat.length 0) ∧
    (∀ (mat : List (List ℝ)) (qv dv : List ℝ) (i : ℕ), mat[i]? = some dv →
      vnorm dv = 0 → (scoresOf mat qv)[i]? = some 0) := by
  refine ⟨fun ge q k => rfl, ?_, fun docs mat q k => ?_, fun docs emb q k => ?_,
    fun mat emb q k => ?_, fun mat qv h => ?_, fun mat qv dv i hi hv => ?_⟩
  · intro idx k
    obtain ⟨docs, mat, emb⟩ := idx
    cases mat <;> cases emb <;> simp [search]
  · cases mat <;> rfl
  · cases emb <;> rfl
  · simp [search]
  · unfold scoresOf
    rw [if_pos h]
  · have hlen : i < mat.length := by
      by_contra hge
      rw [List.getElem?_eq_none (Nat.le_of_not_lt hge)] at hi
      exact Option.noConfusion hi
    by_cases hq : vnorm qv = 0
    · unfold scoresOf
      rw [if_pos hq]
      exact List.getElem?_replicate_of_lt hlen
    · unfold scoresOf
      rw [if_neg hq, List.getElem?_map, hi]
      simp [hv]

/-- Witness for claim C9: a zero-norm query vector and a zero-norm document
vector each produce score `0` at concrete inputs. -/
theorem claim_C9_witness :
    vnorm [(0 : ℝ)] = 0 ∧
    scoresOf [[1]] [(0 : ℝ)] = List.replicate 1 0 ∧
    (scoresOf [[(0 : ℝ)]] [1])[0]? = some 0 := by
  have h0 : vnorm [(0 : ℝ)] = 0 := by
    simp [vnorm]
  exact ⟨h0, (claim_C9 fun _ => []).2.2.2.2.2.1 [[1]] [(0 : ℝ)] h0,
    (claim_C9 fun _ => []).2.2.2.2.2.2 [[(0 : ℝ)]] [1] [(0 : ℝ)] 0 rfl h0⟩

/-- Document "A" (insertion position 0) of the tie counterexample. -/
def cexDocA : Doc := ⟨0, "A", "", "", none, none, none⟩

/-- Document "B" (insertion position 1) of the tie counterexample. -/
def cexDocB : Doc := ⟨1, "B", "", "", none, none, none⟩

/-- A loaded index whose two documents get identical cosine scores. -/
def cexTieIndex : RagIndex :=
  ⟨[cexDocA, cexDocB], some [[1], [1]], some fun _ => [1]⟩

/-- An argsort collaborator that returns the tied indices in reverse
insertion order — an output `np.argsort`'s documented (non-stable,
`quicksort`) contract permits on equal scores. -/
def cexTieArgsort : List ℝ → List ℕ := fun _ => [1, 0]

/-- On `cexTieIndex`, both documents score exactly `1`. -/
theorem cexTieScores : scoresOf [[(1 : ℝ)], [1]] [1] = [1, 1] := by
  have hv : vnorm [(1 : ℝ)] = 1 := by
    simp [vnorm]
  unfold scoresOf
  rw [if_neg (by rw [hv]; norm_num)]
  simp [hv, dotProd]

/-- `cexTieArgsort` satisfies the documented argsort contract on the
counterexample's (all-equal) scores. -/
theorem cexTieConforms :
    IsArgsortDesc (scoresOf [[(1 : ℝ)], [1]] [1])
      (cexTieArgsort (scoresOf [[(1 : ℝ)], [1]] [1])) := by
  constructor
  · show List.Perm [1, 0] (List.range (scoresOf [[(1 : ℝ)], [1]] [1]).length)
    rw [cexTieScores]
    decide
  · show List.Pairwise _ [1, 0]
    rw [cexTieScores]
    norm_num [List.pairwise_cons, List.getD]

/-- Counterexample for claim C10: the claim's ties-by-insertion-order
clause is not guaranteed by the program.  `rag.py:106` ranks with
`np.argsort(-scores)` using numpy's default `quicksort`, which is
documented as not stable: on equal scores any order may come back.  Here
both documents score exactly `1`, the argsort collaborator returns the
tied indices in reverse insertion order — which `IsArgsortDesc`, the
documented contract, permits — and `search` returns the titles as
`["B", "A"]` instead of the insertion order `["A", "B"]`. -/
theorem claim_C10_counterexample :
    IsArgsortDesc (scoresOf [[(1 : ℝ)], [1]] [1])
      (cexTieArgsort (scoresOf [[(1 : ℝ)], [1]] [1])) ∧
    (scoresOf [[(1 : ℝ)], [1]] [1]).getD 0 0 =
      (scoresOf [[(1 : ℝ)], [1]] [1]).getD 1 0 ∧
    (search cexTieArgsort cexTieIndex "q" 2).map Hit.TITLE = ["B", "A"] ∧
    ["B", "A"] ≠ [cexDocA.title, cexDocB.title] := by
  refine ⟨cexTieConforms, ?_, ?_, by decide⟩
  · rw [cexTieScores]
    rfl
  · have hne : ¬(("q" : String) = "" ∨ ([cexDocA, cexDocB] : List Doc) = []) := by
      decide
    unfold search searchIdxs cexTieIndex cexTieArgsort
    dsimp only
    rw [if_neg hne, if_neg hne]
    simp [cexDocA, cexDocB, List.getD]

/-- Claim C10, amended: for every index with installed embeddings and
backend and every argsort collaborator meeting `np.argsort`'s documented
contract (a permutation of the row indices, descending by score),
`search` returns at most `k` hits ranked by cosine score in descending
order.  The order among equal-score hits is implementation-defined —
numpy's default `quicksort` argsort gives no stability guarantee — so no
insertion-order tie-break is claimed. -/
theorem claim_C10 (argsort : List ℝ → List ℕ) (docs : List Doc)
    (mat : List (List ℝ)) (emb : Embedder) (query : String) (k : ℕ)
    (hconf : IsArgsortDesc (scoresOf mat (emb query))
      (argsort (scoresOf mat (emb query)))) :
    (search argsort ⟨docs, some mat, some emb⟩ query k).length ≤ k ∧
    List.Sorted (fun a b : Hit => b.SCORE ≤ a.SCORE)
      (search argsort ⟨docs, some mat, some emb⟩ query k) := by
  set scores := scoresOf mat (emb query) with hscores
  by_cases hq : query = "" ∨ docs = []
  · constructor <;> simp [search, hq]
  · have hsearch : search argsort ⟨docs, some mat, some emb⟩ query k =
        ((argsort scores).take k).map fun i =>
          ⟨(docs.getD i ⟨0, "", "", "", none, none, none⟩).title,
           (docs.getD i ⟨0, "", "", "", none, none, none⟩).url,
           _make_snippet (docs.getD i ⟨0, "", "", "", none, none, none⟩).text,
           scores.getD i 0⟩ := by
      unfold search searchIdxs
      dsimp only
      rw [if_neg hq, if_neg hq]
    constructor
    · rw [hsearch, List.length_map]
      exact List.length_take_le k _
    · rw [hsearch]
      show List.Pairwise _ _
      rw [List.pairwise_map]
      have hp : List.Pairwise (fun i j => scores.getD j 0 ≤ scores.getD i 0)
          ((argsort scores).take k) :=
        List.Pairwise.sublist (List.take_sublist k _) hconf.2
      exact hp.imp fun h => h

/-- Witness for claim C10: the amended statement discharged on the
concrete tie index with a conforming argsort collaborator. -/
theorem claim_C10_witness :
    IsArgsortDesc (scoresOf [[(1 : ℝ)], [1]] ((fun _ => [(1 : ℝ)]) "q"))
      (cexTieArgsort (scoresOf [[(1 : ℝ)], [1]] ((fun _ => [(1 : ℝ)]) "q"))) ∧
    (search cexTieArgsort cexTieIndex "q" 2).length ≤ 2 ∧
    List.Sorted (fun a b : Hit => b.SCORE ≤ a.SCORE)
      (search cexTieArgsort cexTieIndex "q" 2) :=
  ⟨cexTieConforms,
   (claim_C10 cexTieArgsort [cexDocA, cexDocB] [[1], [1]] (fun _ => [1]) "q" 2
     cexTieConforms).1,
   (claim_C10 cexTieArgsort [cexDocA, cexDocB] [[1], [1]] (fun _ => [1]) "q" 2
     cexTieConforms).2⟩
